import Mathlib

/-!
Verification development for the time utilities module
(src/snowflake/connector/time_util.py): a repeating heartbeat timer,
a decorrelated-jitter backoff calculator, and a scoped timing context
manager.  Python exceptions are embedded with Except; the random source
and the wall clock are ambient parameters.
-/

/-- Model of a Python exception instance that derives from Exception:
its class name and its message. -/
structure PyExc where
  kind : String
  msg : String
deriving DecidableEq, Repr

/-- Severity levels of the logging module used by this file. -/
inductive LogLevel where
  | debug
  | info
  | warning
  | error
deriving DecidableEq, Repr

/-- One record emitted through the module logger. -/
structure LogEntry where
  level : LogLevel
  msg : String
deriving DecidableEq, Repr

/-- Model of the Python standard library call random.randint(a, b):
it delegates to randrange(a, b + 1), which raises
ValueError when the range is empty (b + 1 - a is not positive) and
otherwise returns a + _randbelow(b + 1 - a).  The draw _randbelow(width),
uniform over [0, width), is modelled as r % width for the ambient random
source r. -/
def randint (r : Nat) (a b : Int) : Except PyExc Int :=
  if 0 < b + 1 - a then Except.ok (a + (r : Int) % (b + 1 - a))
  else Except.error ⟨"ValueError", "empty range for randrange()"⟩

/-- DecorrelateJitterBackoff: the constructor stores base and cap
unchanged; the source performs no validation. -/
structure DecorrelateJitterBackoff where
  _base : Int
  _cap : Int
deriving DecidableEq, Repr

/-- DecorrelateJitterBackoff.__init__(base, cap): stores the two bounds. -/
def DecorrelateJitterBackoff.init (base cap : Int) : DecorrelateJitterBackoff :=
  { _base := base, _cap := cap }

/-- DecorrelateJitterBackoff.next_sleep(self, _, sleep):
returns min(self._cap, random.randint(self._base, sleep * 3)).
The argument x stands for the unused second Python parameter named
with an underscore; r is the ambient random source consumed by randint.
A ValueError raised by randint propagates to the caller. -/
def DecorrelateJitterBackoff.next_sleep (self : DecorrelateJitterBackoff)
    (r : Nat) (x sleep : Int) : Except PyExc Int :=
  match randint r self._base (sleep * 3) with
  | Except.ok v => Except.ok (min self._cap v)
  | Except.error e => Except.error e

/-- HeartBeatTimer: a threading.Timer subclass.  The constructor body of
threading.Timer stores the interval and the callback and creates an
unset finished event.  The field function gives the outcome of the k-th
invocation of the stored callback (Except.error e models the call
raising the Exception instance e). -/
structure HeartBeatTimer where
  interval : Int
  function : Nat → Except PyExc Unit
  finished : Bool

/-- HeartBeatTimer.__init__(freq, f): interval = freq, then
super().__init__(interval, f); no validation of the interval. -/
def HeartBeatTimer.init (freq : Int) (f : Nat → Except PyExc Unit) : HeartBeatTimer :=
  { interval := freq, function := f, finished := false }

/-- The except-Exception handler wrapped around self.function() in
HeartBeatTimer.run: a raised Exception is converted into a debug-level
log record and the block completes normally. -/
def heartbeatHandler (e : PyExc) : LogEntry :=
  ⟨LogLevel.debug, "failed to heartbeat: " ++ e.msg⟩

/-- The statement try: self.function() except Exception as e:
logger.debug(...) in HeartBeatTimer.run, as a transformer on the outcome
of the call: a normal return produces no log record, a raised Exception
is caught and produces the debug record; in neither case does the block
itself raise. -/
def tryHeartbeat (outcome : Except PyExc Unit) : Except PyExc (Option LogEntry) :=
  match outcome with
  | Except.ok _ => Except.ok Option.none
  | Except.error e => Except.ok (Option.some (heartbeatHandler e))

/-- HeartBeatTimer.run: while not finished.is_set(): finished.wait(interval);
if not finished.is_set(): try self.function() except Exception: log debug.
The flag argument gives the value of self.finished.is_set() at successive
observation points: the while-condition of the iteration starting at step t
reads flag t, the wait returns at step t + 1 where the inner condition reads
flag (t + 1), and the next iteration starts at step t + 2.  The result is
the number of callback invocations paired with the emitted log records;
fuel bounds the number of iterations examined. -/
def HeartBeatTimer.run (self : HeartBeatTimer) (flag : Nat → Bool) :
    Nat → Nat → Except PyExc (Nat × List LogEntry)
  | 0, _ => Except.ok (0, [])
  | fuel + 1, t =>
    if flag t then Except.ok (0, [])
    else if flag (t + 1) then HeartBeatTimer.run self flag fuel (t + 2)
    else
      match tryHeartbeat (self.function t) with
      | Except.error e => Except.error e
      | Except.ok logOpt =>
        match HeartBeatTimer.run self flag fuel (t + 2) with
        | Except.error e => Except.error e
        | Except.ok p => Except.ok (p.1 + 1, logOpt.toList ++ p.2)

/-- TimeCNM: the context manager holds an optional start and an optional
end timestamp, both unset at construction. -/
structure TimeCNM where
  _start : Option Int
  _end : Option Int
deriving DecidableEq, Repr

/-- TimeCNM.__init__: both timestamps unset. -/
def TimeCNM.init : TimeCNM :=
  { _start := Option.none, _end := Option.none }

/-- TimeCNM.__enter__: records get_time_millis() into _start and returns
self; now is the wall-clock reading of that call. -/
def TimeCNM.enterMethod (t : TimeCNM) (now : Int) : TimeCNM :=
  { t with _start := Option.some now }

/-- TimeCNM.__exit__(exc_type, exc_val, exc_tb): records get_time_millis()
into _end and falls off the end of the body, so the Python return value is
None (modelled as Option.none of Option Bool); the exception information
arguments are ignored. -/
def TimeCNM.exitMethod (t : TimeCNM) (now : Int) (excType : Option String)
    (excVal : Option PyExc) (excTb : Option Unit) : TimeCNM × Option Bool :=
  ({ t with _end := Option.some now }, Option.none)

/-- Python truthiness of the value returned by __exit__: None is falsy, a
bool is itself.  The with statement suppresses a body exception exactly
when this is true. -/
def pyTruthy : Option Bool → Bool
  | Option.none => false
  | Option.some b => b

/-- TimeCNM.__int__: raises Exception when either timestamp is unset,
otherwise returns _end - _start. -/
def TimeCNM.toInt (t : TimeCNM) : Except PyExc Int :=
  match t._start, t._end with
  | Option.some s, Option.some e => Except.ok (e - s)
  | _, _ => Except.error ⟨"Exception", "Trying to get timing before TimeCNM has finished"⟩

/-- The statement with TimeCNM() as m: body, per the Python with-statement
semantics: __enter__ runs first, then the body, then __exit__ on every
path; the body exception is re-raised unless the __exit__ return value is
truthy.  clock k is the reading of the k-th get_time_millis() call made by
this statement (entry reads clock 0, exit reads clock 1); body is the
outcome of the managed block.  Returns the final manager state and the
outcome of the whole statement. -/
def withTimeCNM (clock : Nat → Int) (body : Except PyExc Unit) :
    TimeCNM × Except PyExc Unit :=
  let t1 := TimeCNM.init.enterMethod (clock 0)
  match body with
  | Except.ok _ =>
    let r := t1.exitMethod (clock 1) Option.none Option.none Option.none
    (r.1, Except.ok ())
  | Except.error e =>
    let r := t1.exitMethod (clock 1) (Option.some e.kind) (Option.some e) (Option.some ())
    (r.1, if pyTruthy r.2 then Except.ok () else Except.error e)

/-- Concrete callback trace for witnesses: every invocation succeeds. -/
def cbOk : Nat → Except PyExc Unit := fun _ => Except.ok ()

/-- Concrete callback trace for witnesses: the first invocation raises,
later ones succeed. -/
def cbBoom : Nat → Except PyExc Unit := fun k =>
  if k = 0 then Except.error ⟨"Exception", "boom"⟩ else Except.ok ()

/-- Concrete timer instance for witnesses. -/
def hbSelf : HeartBeatTimer := HeartBeatTimer.init 10 cbBoom

/-- Concrete cancellation schedule for witnesses: the finished event is
set from step 2 on (monotone, as an Event only ever transitions to set). -/
def hbFlag : Nat → Bool := fun t => decide (2 ≤ t)

/-- Helper: whatever the schedule and callback outcomes, run returns
normally; the only statement inside the loop that can raise is the
callback call, and it sits inside the except-Exception handler. -/
theorem HeartBeatTimer.run_isOk (self : HeartBeatTimer) (flag : Nat → Bool) :
    ∀ fuel t, ∃ p, HeartBeatTimer.run self flag fuel t = Except.ok p := by
  intro fuel
  induction fuel with
  | zero => intro t; exact ⟨(0, []), rfl⟩
  | succ fuel ih =>
    intro t
    by_cases h1 : flag t
    · exact ⟨(0, []), by simp [HeartBeatTimer.run, h1]⟩
    · by_cases h2 : flag (t + 1)
      · obtain ⟨p, hp⟩ := ih (t + 2)
        exact ⟨p, by simp [HeartBeatTimer.run, h1, h2, hp]⟩
      · obtain ⟨p, hp⟩ := ih (t + 2)
        cases hcb : self.function t with
        | ok u =>
          exact ⟨(p.1 + 1, p.2), by
            simp [HeartBeatTimer.run, h1, h2, tryHeartbeat, hcb, hp]⟩
        | error e =>
          exact ⟨(p.1 + 1, heartbeatHandler e :: p.2), by
            simp [HeartBeatTimer.run, h1, h2, tryHeartbeat, hcb, hp]⟩

/-- Helper: once the finished event is observed set at the while-condition,
run exits at once with no callback invocation and no log record. -/
theorem HeartBeatTimer.run_cancelled (self : HeartBeatTimer) (flag : Nat → Bool)
    (t : Nat) (h : flag t = true) :
    ∀ fuel, HeartBeatTimer.run self flag fuel t = Except.ok (0, []) := by
  intro fuel
  cases fuel with
  | zero => rfl
  | succ fuel => simp [HeartBeatTimer.run, h]

/-- Claim C1, counterexample: at base = 2, cap = 5, previous_sleep = 0 the
preconditions of the claim hold, yet next_sleep raises ValueError (the
empty randint range is not clamped), so no value in [2, 5] is returned. -/
theorem c1_next_sleep_counterexample :
    (0 : Int) ≤ 2 ∧ (2 : Int) ≤ 5 ∧ (0 : Int) ≤ 0 ∧
    (DecorrelateJitterBackoff.init 2 5).next_sleep 0 0 0 =
      Except.error ⟨"ValueError", "empty range for randrange()"⟩ :=
  ⟨by decide, by decide, by decide, rfl⟩

/-- Claim C1 (amended): for 0 ≤ base ≤ cap and previous_sleep ≥ 0,
next_sleep returns a value in the closed interval [base, cap] whenever
base ≤ previous_sleep * 3; when previous_sleep * 3 < base it instead
raises the ValueError of the empty randint range. -/
theorem next_sleep_range_characterization (base cap sleep : Int) (r : Nat) (x : Int)
    (h0 : 0 ≤ base) (h1 : base ≤ cap) (h2 : 0 ≤ sleep) :
    (base ≤ sleep * 3 →
      ∃ v, (DecorrelateJitterBackoff.init base cap).next_sleep r x sleep = Except.ok v ∧
        base ≤ v ∧ v ≤ cap) ∧
    (sleep * 3 < base →
      (DecorrelateJitterBackoff.init base cap).next_sleep r x sleep =
        Except.error ⟨"ValueError", "empty range for randrange()"⟩) := by
  constructor
  · intro hle
    have hw : 0 < sleep * 3 + 1 - base := by omega
    have hmod0 : 0 ≤ (r : Int) % (sleep * 3 + 1 - base) := Int.emod_nonneg _ (by omega)
    refine ⟨min cap (base + (r : Int) % (sleep * 3 + 1 - base)), ?_, ?_, ?_⟩
    · simp [DecorrelateJitterBackoff.next_sleep, DecorrelateJitterBackoff.init, randint, hw]
    · exact le_min h1 (by omega)
    · exact min_le_left _ _
  · intro hlt
    have hw : ¬ 0 < sleep * 3 + 1 - base := by omega
    simp [DecorrelateJitterBackoff.next_sleep, DecorrelateJitterBackoff.init, randint, hw]

/-- Witness for the amended C1 at base = 1, cap = 10, previous_sleep = 2,
random source 7. -/
theorem next_sleep_range_characterization_witness :
    ∃ v, (DecorrelateJitterBackoff.init 1 10).next_sleep 7 0 2 = Except.ok v ∧
      1 ≤ v ∧ v ≤ 10 :=
  (next_sleep_range_characterization 1 10 2 7 0 (by decide) (by decide) (by decide)).1
    (by decide)

/-- Claim C2, counterexample: at base = 3, cap = 7, previous_sleep = 0 we
have previous_sleep * 3 ≤ base, yet next_sleep does not return base: it
raises ValueError, because the inverted randint range is not clamped. -/
theorem c2_next_sleep_counterexample :
    (0 : Int) * 3 ≤ 3 ∧ (0 : Int) ≤ 3 ∧ (3 : Int) ≤ 7 ∧
    (DecorrelateJitterBackoff.init 3 7).next_sleep 0 0 0 =
      Except.error ⟨"ValueError", "empty range for randrange()"⟩ :=
  ⟨by decide, by decide, by decide, rfl⟩

/-- Claim C2 (amended): with 0 ≤ base ≤ cap, next_sleep returns exactly
base in the degenerate case previous_sleep * 3 = base; in the strictly
inverted case previous_sleep * 3 < base it raises ValueError rather than
clamping. -/
theorem next_sleep_degenerate_case (base cap sleep : Int) (r : Nat) (x : Int)
    (h0 : 0 ≤ base) (h1 : base ≤ cap) :
    (sleep * 3 = base →
      (DecorrelateJitterBackoff.init base cap).next_sleep r x sleep = Except.ok base) ∧
    (sleep * 3 < base →
      (DecorrelateJitterBackoff.init base cap).next_sleep r x sleep =
        Except.error ⟨"ValueError", "empty range for randrange()"⟩) := by
  constructor
  · intro heq
    have hw : 0 < sleep * 3 + 1 - base := by omega
    have hm : sleep * 3 + 1 - base = 1 := by omega
    simp [DecorrelateJitterBackoff.next_sleep, DecorrelateJitterBackoff.init, randint, hw, hm,
      Int.emod_one, min_eq_right h1]
  · intro hlt
    have hw : ¬ 0 < sleep * 3 + 1 - base := by omega
    simp [DecorrelateJitterBackoff.next_sleep, DecorrelateJitterBackoff.init, randint, hw]

/-- Witness for the amended C2 at base = 6, cap = 7, previous_sleep = 2,
random source 5: the result is exactly the base. -/
theorem next_sleep_degenerate_case_witness :
    (DecorrelateJitterBackoff.init 6 7).next_sleep 5 0 2 = Except.ok 6 :=
  (next_sleep_degenerate_case 6 7 2 5 0 (by decide) (by decide)).1 (by decide)

/-- Claim C3, counterexample: base = 5, cap = 2 violates base ≤ cap, yet
construction succeeds and yields an instance storing those bounds; no
configuration error is raised. -/
theorem c3_init_counterexample :
    ¬ ((5 : Int) ≤ 2) ∧
    DecorrelateJitterBackoff.init 5 2 = { _base := 5, _cap := 2 } :=
  ⟨by decide, rfl⟩

/-- Claim C3 (amended): the constructor performs no validation: for every
base and cap, including those violating 0 ≤ base ≤ cap, construction
succeeds and stores the bounds unchanged. -/
theorem backoff_init_stores_unvalidated (base cap : Int) :
    (DecorrelateJitterBackoff.init base cap)._base = base ∧
    (DecorrelateJitterBackoff.init base cap)._cap = cap :=
  ⟨rfl, rfl⟩

/-- Claim C8, counterexample: interval = 0 satisfies interval ≤ 0, yet
construction succeeds, yielding an unstarted timer storing interval 0; no
configuration error is raised. -/
theorem c8_init_counterexample :
    (0 : Int) ≤ 0 ∧
    (HeartBeatTimer.init 0 cbOk).interval = 0 ∧
    (HeartBeatTimer.init 0 cbOk).finished = false :=
  ⟨by decide, rfl, rfl⟩

/-- Claim C8 (amended): the constructor performs no validation: every
interval, including interval ≤ 0, is accepted and stored unchanged, with
the finished event initially unset. -/
theorem heartbeat_init_stores_unvalidated (freq : Int) (f : Nat → Except PyExc Unit) :
    (HeartBeatTimer.init freq f).interval = freq ∧
    (HeartBeatTimer.init freq f).function = f ∧
    (HeartBeatTimer.init freq f).finished = false :=
  ⟨rfl, rfl, rfl⟩

/-- Claim C9: the first Python argument of next_sleep (the underscore
parameter) has no influence on the computation: with the same random
source and the same previous sleep, any two values for it give equal
results. -/
theorem next_sleep_ignores_first_argument (b : DecorrelateJitterBackoff)
    (r : Nat) (x y sleep : Int) :
    b.next_sleep r x sleep = b.next_sleep r y sleep := rfl

/-- Claim C4: in any loop iteration in which the finished event is unset
at both checks and the callback raises an Exception, the exception is
caught by the handler, which logs it at debug level; the loop proceeds to
the next iteration (the iteration contributes exactly one invocation and
the debug record on top of the remaining run); and no schedule makes run
propagate an exception to its caller. -/
theorem heartbeat_failure_logged_and_loop_continues (self : HeartBeatTimer)
    (flag : Nat → Bool) (fuel t : Nat) (e : PyExc)
    (h1 : flag t = false) (h2 : flag (t + 1) = false)
    (h3 : self.function t = Except.error e) :
    (tryHeartbeat (self.function t) = Except.ok (Option.some (heartbeatHandler e)) ∧
      (heartbeatHandler e).level = LogLevel.debug) ∧
    (∀ n l, HeartBeatTimer.run self flag fuel (t + 2) = Except.ok (n, l) →
      HeartBeatTimer.run self flag (fuel + 1) t =
        Except.ok (n + 1, heartbeatHandler e :: l)) ∧
    (∀ fuel2 t2, ∃ p, HeartBeatTimer.run self flag fuel2 t2 = Except.ok p) := by
  refine ⟨⟨by simp [tryHeartbeat, h3], rfl⟩, ?_, HeartBeatTimer.run_isOk self flag⟩
  intro n l hrec
  simp [HeartBeatTimer.run, h1, h2, tryHeartbeat, h3, hrec]

/-- Witness for C4 at the concrete timer hbSelf, whose first callback
invocation raises, with cancellation arriving at step 2. -/
theorem heartbeat_failure_logged_and_loop_continues_witness :
    (tryHeartbeat (hbSelf.function 0) =
        Except.ok (Option.some (heartbeatHandler ⟨"Exception", "boom"⟩)) ∧
      (heartbeatHandler ⟨"Exception", "boom"⟩).level = LogLevel.debug) ∧
    (∀ n l, HeartBeatTimer.run hbSelf hbFlag 3 2 = Except.ok (n, l) →
      HeartBeatTimer.run hbSelf hbFlag 4 0 =
        Except.ok (n + 1, heartbeatHandler ⟨"Exception", "boom"⟩ :: l)) ∧
    (∀ fuel2 t2, ∃ p, HeartBeatTimer.run hbSelf hbFlag fuel2 t2 = Except.ok p) :=
  heartbeat_failure_logged_and_loop_continues hbSelf hbFlag 3 0 ⟨"Exception", "boom"⟩
    rfl rfl rfl

/-- Claim C5: with a monotone finished flag (an Event, once set, stays
set), a run whose while-condition already observes cancellation performs
zero callback invocations, and a run whose post-wait check observes
cancellation exits without invoking the callback again. -/
theorem cancellation_prevents_callback (self : HeartBeatTimer) (flag : Nat → Bool)
    (fuel t : Nat) (mono : ∀ s, flag s = true → flag (s + 1) = true) :
    (flag t = true → HeartBeatTimer.run self flag fuel t = Except.ok (0, [])) ∧
    (flag (t + 1) = true → HeartBeatTimer.run self flag fuel t = Except.ok (0, [])) := by
  constructor
  · intro h
    exact HeartBeatTimer.run_cancelled self flag t h fuel
  · intro h2
    cases fuel with
    | zero => rfl
    | succ fuel =>
      by_cases h1 : flag t
      · simp [HeartBeatTimer.run, h1]
      · have h3 : flag (t + 2) = true := mono (t + 1) h2
        simp [HeartBeatTimer.run, h1, h2,
          HeartBeatTimer.run_cancelled self flag (t + 2) h3 fuel]

/-- Witness for C5: with cancellation signalled from step 2 on, a run
started at step 2 performs zero invocations and emits no log record. -/
theorem cancellation_prevents_callback_witness :
    HeartBeatTimer.run hbSelf hbFlag 3 2 = Except.ok (0, []) :=
  (cancellation_prevents_callback hbSelf hbFlag 3 2
    (fun s hs => by simp only [hbFlag, decide_eq_true_eq] at hs ⊢; omega)).1 rfl

/-- Claim C6: while either timestamp of a TimeCNM is unset, the integer
conversion raises the not-yet-finished Exception instead of returning a
value. -/
theorem toInt_before_finish_raises (t : TimeCNM)
    (h : t._start = Option.none ∨ t._end = Option.none) :
    t.toInt =
      Except.error ⟨"Exception", "Trying to get timing before TimeCNM has finished"⟩ := by
  rcases t with ⟨s, e⟩
  cases s <;> cases e <;> simp_all [TimeCNM.toInt]

/-- Witness for C6: a freshly constructed TimeCNM raises on conversion. -/
theorem toInt_before_finish_raises_witness :
    TimeCNM.init.toInt =
      Except.error ⟨"Exception", "Trying to get timing before TimeCNM has finished"⟩ :=
  toInt_before_finish_raises TimeCNM.init (Or.inl rfl)

/-- Claim C7: for any clock readings and any body outcome (normal or
raising), the with statement records the entry reading as start and the
exit reading as end, and the subsequent integer conversion returns
exactly end minus start in milliseconds. -/
theorem scoped_timer_elapsed_after_exit (clock : Nat → Int) (body : Except PyExc Unit) :
    (withTimeCNM clock body).1._start = Option.some (clock 0) ∧
    (withTimeCNM clock body).1._end = Option.some (clock 1) ∧
    (withTimeCNM clock body).1.toInt = Except.ok (clock 1 - clock 0) := by
  cases body with
  | ok u => exact ⟨rfl, rfl, rfl⟩
  | error e => exact ⟨rfl, rfl, rfl⟩

/-- Claim C10: __exit__ records the end timestamp and returns None (for
any arguments), and since None is falsy the with statement never
suppresses a body exception: a raising body makes the whole statement
re-raise that same exception, with the end timestamp still recorded. -/
theorem exit_records_end_never_suppresses (t : TimeCNM) (now : Int)
    (a : Option String) (b : Option PyExc) (c : Option Unit)
    (clock : Nat → Int) (e : PyExc) :
    (t.exitMethod now a b c).1._end = Option.some now ∧
    (t.exitMethod now a b c).2 = Option.none ∧
    (withTimeCNM clock (Except.error e)).1._end = Option.some (clock 1) ∧
    (withTimeCNM clock (Except.error e)).2 = Except.error e :=
  ⟨rfl, rfl, rfl, rfl⟩
